import Mathlib

/-
Verification of the TileDB-SOMA metadata-store and pairwise-matrix-group
contracts against a shallow embedding of the repository code.

Part A models the per-object scalar metadata store and its value marshaller.
The store implementation itself is not part of the analyzed source slice
(only its test suite, apis/python/tests/test_metadata.py, is), so these
definitions are modelled from the specification text, section 4.1 and 4.2.

Part B embeds apis/python/src/tiledbsc/annotation_pairwise_matrix_group.py
directly from the source.
-/

set_option autoImplicit false

/-- Modelled from the spec: an IEEE-754 double value as the marshaller sees
it, distinguishing the sentinel values NaN, plus infinity and minus infinity
from ordinary finite values (represented here by their exact rational
payload). The spec, section 4.1, requires these sentinels to be encoded
bit-exact. -/
inductive FloatVal where
  | nan : FloatVal
  | posInf : FloatVal
  | negInf : FloatVal
  | finite : ℚ → FloatVal
deriving DecidableEq

/-- Modelled from the spec: the Python-level values a caller may hand to the
metadata store. Scalars are boolean, integer, float and string; ordered
sequences and key-value mappings are the rejected structured inputs of
section 4.1. -/
inductive PyValue where
  | pybool : Bool → PyValue
  | pyint : Int → PyValue
  | pyfloat : FloatVal → PyValue
  | pystr : String → PyValue
  | pylist : List String → PyValue
  | pydict : List (String × Bool) → PyValue
deriving DecidableEq

/-- Modelled from the spec: the storage-native scalar representation the
marshaller encodes into (section 4.1). Only the four accepted scalar shapes
exist at this level. -/
inductive StorageScalar where
  | sbool : Bool → StorageScalar
  | sint : Int → StorageScalar
  | sfloat : FloatVal → StorageScalar
  | sstr : String → StorageScalar
deriving DecidableEq

/-- Modelled from the spec: the error taxonomy of section 7 that the claims
exercise. -/
inductive PyError where
  | typeMarshalError : PyError
  | readOnlyError : PyError
  | openModeConflictError : PyError
  | invalidModeError : PyError
  | assertionError : PyError
deriving DecidableEq

/-- Modelled from the spec: encode of section 4.1. Accepts the four scalar
shapes bit-exactly and fails with TypeMarshalError on ordered sequences and
key-value mappings. -/
def encode : PyValue → Except PyError StorageScalar
  | .pybool b => .ok (.sbool b)
  | .pyint i => .ok (.sint i)
  | .pyfloat f => .ok (.sfloat f)
  | .pystr s => .ok (.sstr s)
  | .pylist _ => .error .typeMarshalError
  | .pydict _ => .error .typeMarshalError

/-- Modelled from the spec: decode of section 4.1, the inverse direction of
the bit-exact scalar encoding. -/
def decode : StorageScalar → PyValue
  | .sbool b => .pybool b
  | .sint i => .pyint i
  | .sfloat f => .pyfloat f
  | .sstr s => .pystr s

/-- A value the marshaller accepts: any of the four scalar shapes. -/
def accepted : PyValue → Bool
  | .pylist _ => false
  | .pydict _ => false
  | _ => true

/-- A structured value: an ordered sequence or a key-value mapping, the
inputs the marshaller rejects. -/
def isStructured : PyValue → Bool
  | .pylist _ => true
  | .pydict _ => true
  | _ => false

/-- The is-NaN test on a Python-level value: true exactly for the float NaN. -/
def isNaNValue : PyValue → Bool
  | .pyfloat .nan => true
  | _ => false

/-- Modelled from the spec: the reserved internal key marker. The test suite
filters caller metadata by the soma underscore marker
(tests/test_metadata.py, non_soma_metadata). -/
def reservedMarker : String := "soma_"

/-- A key in the reserved internal namespace: it starts with the marker.
Computed over the character lists so that the kernel can evaluate it. -/
def isReserved (k : String) : Bool := reservedMarker.data.isPrefixOf k.data

/-- Modelled from the spec: the open mode of a metadata session
(section 4.2); only the two open states matter to the store operations. -/
inductive SessionMode where
  | openRead : SessionMode
  | openWrite : SessionMode
deriving DecidableEq

/-- Modelled from the spec: a metadata store in one open session
(section 4.2). The entries list is the staged, physically-backed state,
newest binding first; it may physically contain reserved-namespace keys. -/
structure MetadataStore where
  mode : SessionMode
  entries : List (String × StorageScalar)
deriving DecidableEq

/-- Modelled from the spec: get of section 4.2 — decoded value of the staged
binding, or absent; never fails for a missing key. -/
def MetadataStore.get (st : MetadataStore) (k : String) : Option PyValue :=
  (st.entries.lookup k).map decode

/-- Modelled from the spec: contains of sections 4.2 and 8 — reflects staged
state, and a reserved-namespace key is never reported to the caller. -/
def MetadataStore.containsKey (st : MetadataStore) (k : String) : Bool :=
  !(isReserved k) && (st.entries.lookup k).isSome

/-- Modelled from the spec: iterate/items of section 4.2 — the finite
sequence of decoded pairs of the staged state, excluding every key under the
reserved namespace. -/
def MetadataStore.items (st : MetadataStore) : List (String × PyValue) :=
  (st.entries.filter (fun p => !(isReserved p.1))).map (fun p => (p.1, decode p.2))

/-- Modelled from the spec: set of section 4.2. Fails with ReadOnlyError in
a read session, fails with TypeMarshalError when the marshaller rejects the
value, and otherwise stages the binding immediately. The returned store is
the caller-observable state after the call, unchanged on failure. -/
def MetadataStore.trySet (st : MetadataStore) (k : String) (v : PyValue) :
    Option PyError × MetadataStore :=
  match st.mode with
  | .openRead => (some .readOnlyError, st)
  | .openWrite =>
    match encode v with
    | .error e => (some e, st)
    | .ok s => (none, ⟨st.mode, (k, s) :: st.entries.filter (fun p => !(p.1 == k))⟩)

/-- Modelled from the spec: delete of section 4.2. Fails with ReadOnlyError
in a read session; in a write session it removes the key, a no-op when the
key is absent. The returned store is the state after the call. -/
def MetadataStore.tryDelete (st : MetadataStore) (k : String) :
    Option PyError × MetadataStore :=
  match st.mode with
  | .openRead => (some .readOnlyError, st)
  | .openWrite => (none, ⟨st.mode, st.entries.filter (fun p => !(p.1 == k))⟩)

/-
Part B: shallow embedding of
apis/python/src/tiledbsc/annotation_pairwise_matrix_group.py.
Stateful library calls (group open/close, child construction, matrix write,
member registration) are made explicit: the bulk importer is embedded as the
trace of effects it issues, and the name-indexed lookup as a function of the
group open state and the physical member listing.
-/

/-- A matrix staged for import, as an explicit list of (row, col, value)
coordinate triples; the repository consumes the matrix payload opaquely. -/
abbrev MatrixData := List (Nat × Nat × Int)

/-- Mirrors Python str.startswith, computed over the character lists so the
kernel can evaluate it. -/
def strStartsWith (s pre : String) : Bool := pre.data.isPrefixOf s.data

/-- Mirrors Python str.endswith, computed over the character lists so the
kernel can evaluate it. -/
def strEndsWith (s suff : String) : Bool := suff.data.isSuffixOf s.data

/-- Modelled from the Python standard library: os.path.join (posixpath.join)
restricted to two arguments, as used at annotation_pairwise_matrix_group.py
line 56. If the second component is absolute it replaces the first; if the
first is empty or ends in a separator the parts are concatenated; otherwise
a separator is inserted. -/
def osPathJoin (a b : String) : String :=
  if strStartsWith b "/" then b
  else if a = "" ∨ strEndsWith a "/" then a ++ b
  else a ++ "/" ++ b

/-- Mirrors Python os.path.basename: the characters after the last
separator. -/
def lastComponent (cs : List Char) : List Char :=
  cs.foldl (fun acc c => if c = '/' then [] else acc ++ [c]) []

/-- Mirrors Python os.path.basename on a string. -/
def basename (s : String) : String := String.mk (lastComponent s.data)

/-- The kind discriminant the storage engine reports for a listed group
member: a subgroup or an array (tiledb.tiledb.Group versus
tiledb.libtiledb.Array in the source). -/
inductive ObjKind where
  | group : ObjKind
  | array : ObjKind
deriving DecidableEq

/-- Modelled from the spec: one physically listed member of a storage
group, as reported by the external storage engine (section 6,
listGroupMembers): its name, URI, kind discriminant, and, for arrays, the
stored coordinate data that a full read returns. -/
structure TileDBObjectRecord where
  name : String
  uri : String
  kind : ObjKind
  data : MatrixData
deriving DecidableEq

/-- The AssayMatrix handle constructed during bulk import
(annotation_pairwise_matrix_group.py lines 57 to 63): its URI, name and the
two dimension names passed by the parent group. -/
structure AssayMatrix where
  uri : String
  name : String
  row_dim_name : String
  col_dim_name : String
deriving DecidableEq

/-- The typed handle returned by name-indexed lookup
(annotation_pairwise_matrix_group.py lines 151 to 154). -/
structure AnnotationPairwiseMatrix where
  uri : String
  name : String
  row_dim_name : String
  col_dim_name : String
deriving DecidableEq

/-- The pairwise matrix group of annotation_pairwise_matrix_group.py: a
TileDBGroup with the two dimension names fixed at construction. -/
structure AnnotationPairwiseMatrixGroup where
  uri : String
  name : String
  row_dim_name : String
  col_dim_name : String
deriving DecidableEq

/-- The constructor of AnnotationPairwiseMatrixGroup (source lines 23 to
39): the name must be obsp or varp (the assert on line 32, embedded as a
construction error), and the dimension name pair is fixed accordingly. -/
def AnnotationPairwiseMatrixGroup.init (uri nm : String) :
    Except PyError AnnotationPairwiseMatrixGroup :=
  if nm = "obsp" ∨ nm = "varp" then
    if nm = "obsp" then .ok ⟨uri, nm, "obs_id_i", "obs_id_j"⟩
    else .ok ⟨uri, nm, "var_id_i", "var_id_j"⟩
  else .error .assertionError

/-- One observable effect issued by the bulk importer: opening the group in
a mode, writing one child matrix with its row and column label sequences,
registering one child in the group membership, or closing the group. -/
inductive GroupEvent where
  | openEv : String → GroupEvent
  | fromMatrixEv : AssayMatrix → MatrixData → List String → List String → GroupEvent
  | addObjectEv : AssayMatrix → GroupEvent
  | closeEv : GroupEvent
deriving DecidableEq

/-- The effects issued for one named source matrix inside the bulk-import
loop (source lines 54 to 65): construct the child at the joined URI with the
parent dimension names, write it with the shared label sequence on both
axes, and register it. -/
def childEvents (g : AnnotationPairwiseMatrixGroup) (dim_values : List String)
    (p : String × MatrixData) : List GroupEvent :=
  let m : AssayMatrix :=
    ⟨osPathJoin g.uri p.1, p.1, g.row_dim_name, g.col_dim_name⟩
  [GroupEvent.fromMatrixEv m p.2 dim_values dim_values, GroupEvent.addObjectEv m]

/-- The bulk importer from_anndata (source lines 43 to 66), embedded as the
trace of effects it issues: open for writing, the per-member effects in
order, then close. -/
def AnnotationPairwiseMatrixGroup.from_anndata (g : AnnotationPairwiseMatrixGroup)
    (annotation_pairwise_matrices : List (String × MatrixData))
    (dim_values : List String) : List GroupEvent :=
  GroupEvent.openEv "w" ::
    annotation_pairwise_matrices.flatMap (childEvents g dim_values) ++
      [GroupEvent.closeEv]

/-- The open state of a TileDBGroup between calls. -/
inductive GroupOpenState where
  | closed : GroupOpenState
  | openRead : GroupOpenState
  | openWrite : GroupOpenState
deriving DecidableEq

/-- Modelled from the spec: TileDBGroup open (section 4.3) — not part of the
analyzed source slice. Opening in the mode already held is an idempotent
no-op; opening while open in a different mode fails with
OpenModeConflictError; a mode other than r or w is rejected. -/
def groupOpen (st : GroupOpenState) (mode : String) :
    Except PyError GroupOpenState :=
  if mode = "r" then
    match st with
    | .closed => .ok .openRead
    | .openRead => .ok .openRead
    | .openWrite => .error .openModeConflictError
  else if mode = "w" then
    match st with
    | .closed => .ok .openWrite
    | .openWrite => .ok .openWrite
    | .openRead => .error .openModeConflictError
  else .error .invalidModeError

/-- Modelled from the spec: TileDBGroup close (section 4.3) — flushes and
releases; idempotent when already closed. -/
def groupClose (_st : GroupOpenState) : GroupOpenState := GroupOpenState.closed

/-- The exception message raised on source line 149. -/
def errGroupWhereArray : String :=
  "Internal error: found group element where array element was expected."

/-- The observable outcome of one name-indexed lookup: a None return, a
typed matrix handle, the internal-consistency exception of source line 149,
or an error escaping from the open call itself. -/
inductive GetItemOutcome where
  | noneResult : GetItemOutcome
  | matrixResult : AnnotationPairwiseMatrix → GetItemOutcome
  | raisedInternal : String → GetItemOutcome
  | raisedOpen : PyError → GetItemOutcome
deriving DecidableEq

/-- Name-indexed lookup, the getitem overload of source lines 131 to 156:
open the group read-only, resolve the name against the physical listing
(absence caught and turned into None), close the group, then discriminate on
the physical kind. The result is paired with the group open state after the
call returns or raises. -/
def AnnotationPairwiseMatrixGroup.getItem (g : AnnotationPairwiseMatrixGroup)
    (st : GroupOpenState) (listing : List TileDBObjectRecord) (nm : String) :
    GetItemOutcome × GroupOpenState :=
  match groupOpen st "r" with
  | .error e => (.raisedOpen e, st)
  | .ok st1 =>
    let obj := listing.find? (fun o => o.name == nm)
    let st2 := groupClose st1
    match obj with
    | none => (.noneResult, st2)
    | some o =>
      match o.kind with
      | .group => (.raisedInternal errGroupWhereArray, st2)
      | .array =>
        (.matrixResult ⟨o.uri, nm, g.row_dim_name, g.col_dim_name⟩, st2)

/-- Modelled from the spec: the external scipy conversion of the staged
coordinate triples to compressed-row form (section 6 collaborator),
represented as a stable row-major ordering of the triples. Insertion step. -/
def csrInsert (x : Nat × Nat × Int) :
    List (Nat × Nat × Int) → List (Nat × Nat × Int)
  | [] => [x]
  | y :: ys =>
    if x.1 < y.1 ∨ (x.1 = y.1 ∧ x.2.1 ≤ y.2.1) then x :: y :: ys
    else y :: csrInsert x ys

/-- Modelled from the spec: compressed-row conversion of a coordinate
matrix, as row-major insertion sort. -/
def toCsr (m : MatrixData) : MatrixData := m.foldr csrInsert []

/-- The read-side bulk export to_dict_of_csr (source lines 69 to 113). The
argument is the physical state of the group URI: none when the group was
never created (the caught open failure of lines 76 to 79, returning the
empty mapping), otherwise the listed members, each read fully and keyed by
the basename of its URI. -/
def AnnotationPairwiseMatrixGroup.to_dict_of_csr
    (physical : Option (List TileDBObjectRecord)) :
    List (String × MatrixData) :=
  match physical with
  | none => []
  | some elems => elems.map (fun e => (basename e.uri, toCsr e.data))

/-- The notion of one URI being located beneath another, following the
wording of the spec (section 4.5: addressed beneath this group URI): the
child extends the parent URI past a directory separator and differs from
it. -/
def uriLocatedBeneath (p c : String) : Prop :=
  (∃ s : List Char,
    c.data = (if strEndsWith p "/" then p else p ++ "/").data ++ s) ∧ c ≠ p

/-
Theorems. Each claim of the specification is settled by exactly one theorem
below; theorems with hypotheses are accompanied by a closed witness.
-/

/-- C1: for every value the scalar metadata marshaller accepts (booleans,
integers, floats including NaN and both infinities, and strings including
the empty string), storing it under a key in a write-opened store succeeds
and reading it back yields a value equal to it; in the single exception case
of NaN, the value read back satisfies the is-NaN test. -/
theorem c1_metadata_roundtrip (st : MetadataStore) (k : String) (v : PyValue)
    (hm : st.mode = .openWrite) (ha : accepted v = true) :
    (st.trySet k v).1 = none
    ∧ (isNaNValue v = false → ((st.trySet k v).2).get k = some v)
    ∧ (isNaNValue v = true →
        ∃ w, ((st.trySet k v).2).get k = some w ∧ isNaNValue w = true) := by
  refine ⟨?_, fun _ => ?_, fun hn => ⟨v, ?_, hn⟩⟩ <;>
    cases v <;>
      simp_all [MetadataStore.trySet, encode, decode, accepted,
        MetadataStore.get, List.lookup]

/-- Witness for C1 at the NaN input on an empty write-opened store. -/
theorem c1_metadata_roundtrip_witness :
    ((MetadataStore.mk .openWrite []).trySet "k" (.pyfloat .nan)).1 = none
    ∧ (isNaNValue (.pyfloat .nan) = false →
        (((MetadataStore.mk .openWrite []).trySet "k" (.pyfloat .nan)).2).get "k"
          = some (.pyfloat .nan))
    ∧ (isNaNValue (.pyfloat .nan) = true →
        ∃ w, (((MetadataStore.mk .openWrite []).trySet "k" (.pyfloat .nan)).2).get "k"
          = some w ∧ isNaNValue w = true) :=
  c1_metadata_roundtrip ⟨.openWrite, []⟩ "k" (.pyfloat .nan) rfl rfl

/-- C2: attempting to set an ordered-sequence or key-value-mapping value on
a write-opened store fails with TypeMarshalError, the store is unchanged,
and in particular a key absent before the failed call is still absent after
it (no partial write). -/
theorem c2_structured_value_rejected (st : MetadataStore) (k : String)
    (v : PyValue) (hm : st.mode = .openWrite) (hv : isStructured v = true) :
    (st.trySet k v).1 = some .typeMarshalError
    ∧ (st.trySet k v).2 = st
    ∧ (st.containsKey k = false → ((st.trySet k v).2).containsKey k = false) := by
  cases v <;> simp_all [MetadataStore.trySet, encode, isStructured]

/-- Witness for C2 at a three-element list value on an empty write-opened
store. -/
theorem c2_structured_value_rejected_witness :
    ((MetadataStore.mk .openWrite []).trySet "test_value"
        (.pylist ["a", "b", "c"])).1 = some .typeMarshalError
    ∧ ((MetadataStore.mk .openWrite []).trySet "test_value"
        (.pylist ["a", "b", "c"])).2 = MetadataStore.mk .openWrite []
    ∧ ((MetadataStore.mk .openWrite []).containsKey "test_value" = false →
        (((MetadataStore.mk .openWrite []).trySet "test_value"
          (.pylist ["a", "b", "c"])).2).containsKey "test_value" = false) :=
  c2_structured_value_rejected ⟨.openWrite, []⟩ "test_value"
    (.pylist ["a", "b", "c"]) rfl rfl

/-- C3: on a read-opened store every set and every delete fails with
ReadOnlyError, and the caller-visible contents — get, contains and iteration
results — are identical before and after the failed call. -/
theorem c3_readonly_enforcement (st : MetadataStore) (k : String)
    (v : PyValue) (hm : st.mode = .openRead) :
    st.trySet k v = (some .readOnlyError, st)
    ∧ st.tryDelete k = (some .readOnlyError, st)
    ∧ (∀ k2, ((st.trySet k v).2).get k2 = st.get k2)
    ∧ (∀ k2, ((st.trySet k v).2).containsKey k2 = st.containsKey k2)
    ∧ ((st.trySet k v).2).items = st.items
    ∧ (∀ k2, ((st.tryDelete k).2).get k2 = st.get k2)
    ∧ (∀ k2, ((st.tryDelete k).2).containsKey k2 = st.containsKey k2)
    ∧ ((st.tryDelete k).2).items = st.items := by
  simp [MetadataStore.trySet, MetadataStore.tryDelete, hm]

/-- Witness for C3 on a read-opened store holding one entry. -/
theorem c3_readonly_enforcement_witness :
    (MetadataStore.mk .openRead [("a", .sint 1)]).trySet "b" (.pystr "y")
      = (some .readOnlyError, MetadataStore.mk .openRead [("a", .sint 1)])
    ∧ (MetadataStore.mk .openRead [("a", .sint 1)]).tryDelete "b"
      = (some .readOnlyError, MetadataStore.mk .openRead [("a", .sint 1)])
    ∧ (∀ k2, (((MetadataStore.mk .openRead [("a", .sint 1)]).trySet "b"
        (.pystr "y")).2).get k2 = (MetadataStore.mk .openRead [("a", .sint 1)]).get k2)
    ∧ (∀ k2, (((MetadataStore.mk .openRead [("a", .sint 1)]).trySet "b"
        (.pystr "y")).2).containsKey k2
        = (MetadataStore.mk .openRead [("a", .sint 1)]).containsKey k2)
    ∧ (((MetadataStore.mk .openRead [("a", .sint 1)]).trySet "b"
        (.pystr "y")).2).items = (MetadataStore.mk .openRead [("a", .sint 1)]).items
    ∧ (∀ k2, (((MetadataStore.mk .openRead [("a", .sint 1)]).tryDelete "b").2).get k2
        = (MetadataStore.mk .openRead [("a", .sint 1)]).get k2)
    ∧ (∀ k2, (((MetadataStore.mk .openRead [("a", .sint 1)]).tryDelete "b").2).containsKey k2
        = (MetadataStore.mk .openRead [("a", .sint 1)]).containsKey k2)
    ∧ (((MetadataStore.mk .openRead [("a", .sint 1)]).tryDelete "b").2).items
        = (MetadataStore.mk .openRead [("a", .sint 1)]).items :=
  c3_readonly_enforcement ⟨.openRead, [("a", .sint 1)]⟩ "b" (.pystr "y") rfl

/-- C4: no key under the reserved internal namespace ever appears in
caller-facing enumeration — iteration never yields a reserved key and
contains never reports one — even when such keys are physically present in
the entries of the store. -/
theorem c4_reserved_namespace_invisible (st : MetadataStore) (k : String)
    (hk : isReserved k = true) :
    (∀ p, p ∈ st.items → isReserved p.1 = false)
    ∧ k ∉ st.items.map Prod.fst
    ∧ st.containsKey k = false := by
  have hall : ∀ p, p ∈ st.items → isReserved p.1 = false := by
    intro p hp
    simp only [MetadataStore.items, List.mem_map, List.mem_filter] at hp
    obtain ⟨a, ⟨_, hres⟩, rfl⟩ := hp
    simpa using hres
  refine ⟨hall, ?_, ?_⟩
  · intro hmem
    simp only [List.mem_map] at hmem
    obtain ⟨p, hp, hpk⟩ := hmem
    have := hall p hp
    rw [hpk] at this
    exact absurd hk (by simp [this])
  · simp [MetadataStore.containsKey, hk]

/-- Witness for C4: a store physically holding a reserved key exposes it
neither through iteration nor through contains. -/
theorem c4_reserved_namespace_invisible_witness :
    ("soma_x", StorageScalar.sint 3)
        ∈ (MetadataStore.mk .openRead [("soma_x", .sint 3)]).entries
    ∧ ((∀ p, p ∈ (MetadataStore.mk .openRead [("soma_x", .sint 3)]).items →
          isReserved p.1 = false)
      ∧ "soma_x" ∉ (MetadataStore.mk .openRead [("soma_x", .sint 3)]).items.map Prod.fst
      ∧ (MetadataStore.mk .openRead [("soma_x", .sint 3)]).containsKey "soma_x" = false) :=
  ⟨by decide,
   c4_reserved_namespace_invisible ⟨.openRead, [("soma_x", .sint 3)]⟩ "soma_x"
     (by decide)⟩

/-- C8: constructing a pairwise matrix group with discriminant obsp fixes
the dimension names to the cell-axis pair obs_id_i and obs_id_j,
discriminant varp fixes them to the feature-axis pair var_id_i and
var_id_j, and any other discriminant is a construction error. -/
theorem c8_constructor_discriminant (uri : String) :
    (∃ g, AnnotationPairwiseMatrixGroup.init uri "obsp" = .ok g
        ∧ g.row_dim_name = "obs_id_i" ∧ g.col_dim_name = "obs_id_j")
    ∧ (∃ g, AnnotationPairwiseMatrixGroup.init uri "varp" = .ok g
        ∧ g.row_dim_name = "var_id_i" ∧ g.col_dim_name = "var_id_j")
    ∧ (∀ nm, nm ≠ "obsp" → nm ≠ "varp" →
        AnnotationPairwiseMatrixGroup.init uri nm = .error .assertionError) := by
  refine ⟨⟨⟨uri, "obsp", "obs_id_i", "obs_id_j"⟩, ?_, rfl, rfl⟩,
    ⟨⟨uri, "varp", "var_id_i", "var_id_j"⟩, ?_, rfl, rfl⟩, ?_⟩
  · simp [AnnotationPairwiseMatrixGroup.init]
  · simp [AnnotationPairwiseMatrixGroup.init]
  · intro nm h1 h2
    simp [AnnotationPairwiseMatrixGroup.init, h1, h2]

/-- Witness for C8 at a concrete URI, with the bad discriminant obsm. -/
theorem c8_constructor_discriminant_witness :
    (∃ g, AnnotationPairwiseMatrixGroup.init "file:///tmp/soma/obsp" "obsp" = .ok g
        ∧ g.row_dim_name = "obs_id_i" ∧ g.col_dim_name = "obs_id_j")
    ∧ (∃ g, AnnotationPairwiseMatrixGroup.init "file:///tmp/soma/obsp" "varp" = .ok g
        ∧ g.row_dim_name = "var_id_i" ∧ g.col_dim_name = "var_id_j")
    ∧ AnnotationPairwiseMatrixGroup.init "file:///tmp/soma/obsp" "obsm"
        = .error .assertionError := by
  obtain ⟨a, b, c⟩ := c8_constructor_discriminant "file:///tmp/soma/obsp"
  exact ⟨a, b, c "obsm" (by decide) (by decide)⟩

/-- C9: the read-side bulk export of a pairwise matrix group whose physical
group was never created returns the empty mapping and does not raise. -/
theorem c9_absent_group_exports_empty :
    AnnotationPairwiseMatrixGroup.to_dict_of_csr none
      = ([] : List (String × MatrixData)) := rfl

/-- C7: looking up a name in a pairwise matrix group returns None when the
name is absent from the physical listing, returns a typed matrix handle when
the name resolves to a physical array, and raises the internal-consistency
kind-mismatch error when the name resolves to a physical subgroup. -/
theorem c7_getitem_case_analysis (g : AnnotationPairwiseMatrixGroup)
    (listing : List TileDBObjectRecord) (nm : String) :
    (listing.find? (fun o => o.name == nm) = none →
        g.getItem .closed listing nm = (.noneResult, .closed))
    ∧ (∀ o, listing.find? (fun o2 => o2.name == nm) = some o → o.kind = .array →
        g.getItem .closed listing nm
          = (.matrixResult ⟨o.uri, nm, g.row_dim_name, g.col_dim_name⟩, .closed))
    ∧ (∀ o, listing.find? (fun o2 => o2.name == nm) = some o → o.kind = .group →
        g.getItem .closed listing nm
          = (.raisedInternal errGroupWhereArray, .closed)) := by
  refine ⟨fun h => ?_, fun o h hk => ?_, fun o h hk => ?_⟩
  · simp [AnnotationPairwiseMatrixGroup.getItem, groupOpen, groupClose, h]
  · simp [AnnotationPairwiseMatrixGroup.getItem, groupOpen, groupClose, h, hk]
  · simp [AnnotationPairwiseMatrixGroup.getItem, groupOpen, groupClose, h, hk]

/-- Witness for C7: one listing with an array member and a subgroup member,
looked up at an absent name, the array name and the subgroup name. -/
theorem c7_getitem_case_analysis_witness :
    AnnotationPairwiseMatrixGroup.getItem ⟨"u", "obsp", "obs_id_i", "obs_id_j"⟩
        .closed [⟨"m1", "u/m1", .array, []⟩, ⟨"sub", "u/sub", .group, []⟩] "absent"
      = (.noneResult, .closed)
    ∧ AnnotationPairwiseMatrixGroup.getItem ⟨"u", "obsp", "obs_id_i", "obs_id_j"⟩
        .closed [⟨"m1", "u/m1", .array, []⟩, ⟨"sub", "u/sub", .group, []⟩] "m1"
      = (.matrixResult ⟨"u/m1", "m1", "obs_id_i", "obs_id_j"⟩, .closed)
    ∧ AnnotationPairwiseMatrixGroup.getItem ⟨"u", "obsp", "obs_id_i", "obs_id_j"⟩
        .closed [⟨"m1", "u/m1", .array, []⟩, ⟨"sub", "u/sub", .group, []⟩] "sub"
      = (.raisedInternal errGroupWhereArray, .closed) :=
  ⟨(c7_getitem_case_analysis ⟨"u", "obsp", "obs_id_i", "obs_id_j"⟩
      [⟨"m1", "u/m1", .array, []⟩, ⟨"sub", "u/sub", .group, []⟩] "absent").1
      (by decide),
   (c7_getitem_case_analysis ⟨"u", "obsp", "obs_id_i", "obs_id_j"⟩
      [⟨"m1", "u/m1", .array, []⟩, ⟨"sub", "u/sub", .group, []⟩] "m1").2.1
      ⟨"m1", "u/m1", .array, []⟩ (by decide) rfl,
   (c7_getitem_case_analysis ⟨"u", "obsp", "obs_id_i", "obs_id_j"⟩
      [⟨"m1", "u/m1", .array, []⟩, ⟨"sub", "u/sub", .group, []⟩] "sub").2.2
      ⟨"sub", "u/sub", .group, []⟩ (by decide) rfl⟩

/-- C10 counterexample: on a group already open for writing, name-indexed
lookup does not leave the group closed — the read-open fails with the
open-mode conflict error and the group stays open for writing. -/
theorem c10_frame_counterexample :
    (AnnotationPairwiseMatrixGroup.getItem ⟨"u", "obsp", "obs_id_i", "obs_id_j"⟩
        .openWrite [⟨"m1", "u/m1", .array, []⟩] "m1").2 = .openWrite
    ∧ ¬ (AnnotationPairwiseMatrixGroup.getItem ⟨"u", "obsp", "obs_id_i", "obs_id_j"⟩
        .openWrite [⟨"m1", "u/m1", .array, []⟩] "m1").2 = .closed
    ∧ (AnnotationPairwiseMatrixGroup.getItem ⟨"u", "obsp", "obs_id_i", "obs_id_j"⟩
        .openWrite [⟨"m1", "u/m1", .array, []⟩] "m1").1
      = .raisedOpen .openModeConflictError := by decide

/-- C10 as amended: when the group is not already open for writing,
name-indexed lookup opens it read-only and leaves it closed on every path —
returning a handle, returning None, or raising the kind-mismatch error —
and no open error escapes; when the group is already open for writing, the
read-open itself fails with OpenModeConflictError and the group remains
open for writing. -/
theorem c10_getitem_frame (g : AnnotationPairwiseMatrixGroup)
    (st : GroupOpenState) (listing : List TileDBObjectRecord) (nm : String) :
    (st ≠ .openWrite →
        (g.getItem st listing nm).2 = .closed
        ∧ ∀ e, (g.getItem st listing nm).1 ≠ .raisedOpen e)
    ∧ (st = .openWrite →
        g.getItem st listing nm = (.raisedOpen .openModeConflictError, .openWrite)) := by
  constructor
  · intro hst
    cases st with
    | openWrite => exact absurd rfl hst
    | closed =>
      cases h : listing.find? (fun o => o.name == nm) with
      | none =>
        simp [AnnotationPairwiseMatrixGroup.getItem, groupOpen, groupClose, h]
      | some o =>
        cases hk : o.kind <;>
          simp [AnnotationPairwiseMatrixGroup.getItem, groupOpen, groupClose, h, hk]
    | openRead =>
      cases h : listing.find? (fun o => o.name == nm) with
      | none =>
        simp [AnnotationPairwiseMatrixGroup.getItem, groupOpen, groupClose, h]
      | some o =>
        cases hk : o.kind <;>
          simp [AnnotationPairwiseMatrixGroup.getItem, groupOpen, groupClose, h, hk]
  · intro hst
    subst hst
    simp [AnnotationPairwiseMatrixGroup.getItem, groupOpen]

/-- Witness for the amended C10: a closed group is left closed by a
successful lookup, and a write-opened group is left write-open by the
failing one. -/
theorem c10_getitem_frame_witness :
    ((GroupOpenState.closed ≠ .openWrite →
        (AnnotationPairwiseMatrixGroup.getItem ⟨"u", "obsp", "obs_id_i", "obs_id_j"⟩
          .closed [⟨"m1", "u/m1", .array, []⟩] "m1").2 = .closed
        ∧ ∀ e, (AnnotationPairwiseMatrixGroup.getItem ⟨"u", "obsp", "obs_id_i", "obs_id_j"⟩
          .closed [⟨"m1", "u/m1", .array, []⟩] "m1").1 ≠ .raisedOpen e))
    ∧ ((GroupOpenState.openWrite = .openWrite →
        AnnotationPairwiseMatrixGroup.getItem ⟨"u", "obsp", "obs_id_i", "obs_id_j"⟩
          .openWrite [⟨"m1", "u/m1", .array, []⟩] "m1"
          = (.raisedOpen .openModeConflictError, .openWrite))) :=
  ⟨(c10_getitem_frame ⟨"u", "obsp", "obs_id_i", "obs_id_j"⟩
      .closed [⟨"m1", "u/m1", .array, []⟩] "m1").1,
   (c10_getitem_frame ⟨"u", "obsp", "obs_id_i", "obs_id_j"⟩
      .openWrite [⟨"m1", "u/m1", .array, []⟩] "m1").2⟩

/-- Shape of any event in the bulk-import trace: the opening event, the
closing event, or one of the two per-member events for some member of the
source mapping. -/
theorem from_anndata_mem_cases (g : AnnotationPairwiseMatrixGroup)
    (ms : List (String × MatrixData)) (dv : List String) (e : GroupEvent)
    (he : e ∈ g.from_anndata ms dv) :
    e = .openEv "w" ∨ e = .closeEv ∨
    ∃ p ∈ ms,
      e = .fromMatrixEv ⟨osPathJoin g.uri p.1, p.1, g.row_dim_name, g.col_dim_name⟩
            p.2 dv dv
      ∨ e = .addObjectEv ⟨osPathJoin g.uri p.1, p.1, g.row_dim_name, g.col_dim_name⟩ := by
  simp only [AnnotationPairwiseMatrixGroup.from_anndata, childEvents, List.mem_cons,
    List.mem_append, List.mem_flatMap, List.mem_singleton, List.not_mem_nil,
    or_false] at he
  rcases he with (h | ⟨p, hp, h | h⟩) | h
  · exact Or.inl h
  · exact Or.inr (Or.inr ⟨p, hp, Or.inl h⟩)
  · exact Or.inr (Or.inr ⟨p, hp, Or.inr h⟩)
  · exact Or.inr (Or.inl h)

/-- C6: every child matrix handle associated with a pairwise matrix group
carries the same row and column dimension names as the parent group — every
child written or registered during bulk import is constructed with the
parent pair, and every handle returned by name lookup carries the parent
pair. -/
theorem c6_children_share_dimension_pair (g : AnnotationPairwiseMatrixGroup)
    (ms : List (String × MatrixData)) (dv : List String)
    (st : GroupOpenState) (listing : List TileDBObjectRecord) (nm : String) :
    (∀ m data rl cl, GroupEvent.fromMatrixEv m data rl cl ∈ g.from_anndata ms dv →
        m.row_dim_name = g.row_dim_name ∧ m.col_dim_name = g.col_dim_name)
    ∧ (∀ m, GroupEvent.addObjectEv m ∈ g.from_anndata ms dv →
        m.row_dim_name = g.row_dim_name ∧ m.col_dim_name = g.col_dim_name)
    ∧ (∀ m st2, g.getItem st listing nm = (.matrixResult m, st2) →
        m.row_dim_name = g.row_dim_name ∧ m.col_dim_name = g.col_dim_name) := by
  refine ⟨?_, ?_, ?_⟩
  · intro m data rl cl hmem
    rcases from_anndata_mem_cases g ms dv _ hmem with h | h | ⟨p, hp, h | h⟩ <;>
      simp_all
  · intro m hmem
    rcases from_anndata_mem_cases g ms dv _ hmem with h | h | ⟨p, hp, h | h⟩ <;>
      simp_all
  · intro m st2 h
    cases st with
    | openWrite => simp [AnnotationPairwiseMatrixGroup.getItem, groupOpen] at h
    | closed =>
      cases hfind : listing.find? (fun o => o.name == nm) with
      | none =>
        simp [AnnotationPairwiseMatrixGroup.getItem, groupOpen, groupClose,
          hfind] at h
      | some o =>
        cases hk : o.kind with
        | group =>
          simp [AnnotationPairwiseMatrixGroup.getItem, groupOpen, groupClose,
            hfind, hk] at h
        | array =>
          simp [AnnotationPairwiseMatrixGroup.getItem, groupOpen, groupClose,
            hfind, hk] at h
          obtain ⟨h1, -⟩ := h
          subst h1
          exact ⟨rfl, rfl⟩
    | openRead =>
      cases hfind : listing.find? (fun o => o.name == nm) with
      | none =>
        simp [AnnotationPairwiseMatrixGroup.getItem, groupOpen, groupClose,
          hfind] at h
      | some o =>
        cases hk : o.kind with
        | group =>
          simp [AnnotationPairwiseMatrixGroup.getItem, groupOpen, groupClose,
            hfind, hk] at h
        | array =>
          simp [AnnotationPairwiseMatrixGroup.getItem, groupOpen, groupClose,
            hfind, hk] at h
          obtain ⟨h1, -⟩ := h
          subst h1
          exact ⟨rfl, rfl⟩

/-- Witness for C6: a one-member import and a one-member lookup on an obsp
group, every handle carrying the obs axis pair of the parent. -/
theorem c6_children_share_dimension_pair_witness :
    ((AssayMatrix.mk "u/m1" "m1" "obs_id_i" "obs_id_j").row_dim_name = "obs_id_i"
      ∧ (AssayMatrix.mk "u/m1" "m1" "obs_id_i" "obs_id_j").col_dim_name = "obs_id_j")
    ∧ ((AnnotationPairwiseMatrix.mk "u/m1" "m1" "obs_id_i" "obs_id_j").row_dim_name
        = "obs_id_i"
      ∧ (AnnotationPairwiseMatrix.mk "u/m1" "m1" "obs_id_i" "obs_id_j").col_dim_name
        = "obs_id_j") :=
  ⟨(c6_children_share_dimension_pair ⟨"u", "obsp", "obs_id_i", "obs_id_j"⟩
      [("m1", [])] ["c1"] .closed [⟨"m1", "u/m1", .array, []⟩] "m1").1
      ⟨"u/m1", "m1", "obs_id_i", "obs_id_j"⟩ [] ["c1"] ["c1"] (by decide),
   (c6_children_share_dimension_pair ⟨"u", "obsp", "obs_id_i", "obs_id_j"⟩
      [("m1", [])] ["c1"] .closed [⟨"m1", "u/m1", .array, []⟩] "m1").2.2
      ⟨"u/m1", "m1", "obs_id_i", "obs_id_j"⟩ .closed (by decide)⟩

/-- Appending a nonempty string strictly extends a string. -/
theorem append_ne_left (a b : String) (hb : b ≠ "") : a ++ b ≠ a := by
  intro hcontra
  apply hb
  have hlen := congrArg String.length hcontra
  rw [String.length_append] at hlen
  have h0 : b.length = 0 := by omega
  cases b with
  | mk data =>
    have hd : data.length = 0 := h0
    have hdata : data = [] := List.length_eq_zero.mp hd
    subst hdata
    rfl

/-- Appending a separator and any string strictly extends a string. -/
theorem append_slash_ne (a b : String) : a ++ "/" ++ b ≠ a := by
  intro h
  have hlen := congrArg String.length h
  rw [String.length_append, String.length_append] at hlen
  have h1 : ("/" : String).length = 1 := rfl
  omega

/-- C5 counterexample: a member name beginning with the path separator
defeats the beneath-the-group-URI addressing — the bulk importer registers
a child whose URI is not located beneath the group URI, because
os.path.join replaces the base entirely when the joined name is absolute. -/
theorem c5_bulk_import_counterexample :
    GroupEvent.addObjectEv ⟨"/evil", "/evil", "obs_id_i", "obs_id_j"⟩
        ∈ (AnnotationPairwiseMatrixGroup.mk "g" "obsp" "obs_id_i"
            "obs_id_j").from_anndata [("/evil", [])] []
    ∧ ¬ uriLocatedBeneath "g" "/evil" := by
  constructor
  · decide
  · intro hben
    simp only [uriLocatedBeneath] at hben
    obtain ⟨⟨s, hs⟩, -⟩ := hben
    have hpre : (if strEndsWith "g" "/" then "g" else "g" ++ "/").data
        = ['g', '/'] := rfl
    rw [hpre] at hs
    have happ : (['g', '/'] : List Char) ++ s = 'g' :: '/' :: s := rfl
    rw [happ] at hs
    injection hs with h1 _
    exact absurd h1 (by decide)

/-- C5 as amended: bulk import opens the group for writing first, closes it
exactly once and only after all members are processed, and for each member
of the source mapping writes a child constructed at the join of the group
URI and the member name — located beneath the group URI whenever the group
URI is nonempty and the member name is nonempty and not absolute — with the
same axis-label sequence for both the row and the column dimension, and
registers that child in the group membership. -/
theorem c5_bulk_import_trace (g : AnnotationPairwiseMatrixGroup)
    (ms : List (String × MatrixData)) (dv : List String) :
    (g.from_anndata ms dv).head? = some (.openEv "w")
    ∧ (g.from_anndata ms dv).getLast? = some .closeEv
    ∧ (g.from_anndata ms dv).count .closeEv = 1
    ∧ (∀ nm mat, (nm, mat) ∈ ms →
        GroupEvent.fromMatrixEv
            ⟨osPathJoin g.uri nm, nm, g.row_dim_name, g.col_dim_name⟩ mat dv dv
          ∈ g.from_anndata ms dv
        ∧ GroupEvent.addObjectEv
            ⟨osPathJoin g.uri nm, nm, g.row_dim_name, g.col_dim_name⟩
          ∈ g.from_anndata ms dv
        ∧ (g.uri ≠ "" → nm ≠ "" → strStartsWith nm "/" = false →
            uriLocatedBeneath g.uri (osPathJoin g.uri nm))) := by
  have hnotclose : GroupEvent.closeEv ∉ ms.flatMap (childEvents g dv) := by
    simp [List.mem_flatMap, childEvents]
  refine ⟨rfl, ?_, ?_, ?_⟩
  · show (GroupEvent.openEv "w" ::
        (ms.flatMap (childEvents g dv) ++ [GroupEvent.closeEv])).getLast?
      = some GroupEvent.closeEv
    rw [show GroupEvent.openEv "w" ::
        (ms.flatMap (childEvents g dv) ++ [GroupEvent.closeEv])
      = (GroupEvent.openEv "w" :: ms.flatMap (childEvents g dv))
          ++ [GroupEvent.closeEv] from rfl]
    exact List.getLast?_concat _
  · simp [AnnotationPairwiseMatrixGroup.from_anndata, List.count_cons,
      List.count_append, List.count_eq_zero.mpr hnotclose]
  · intro nm mat hmem
    refine ⟨?_, ?_, ?_⟩
    · refine List.mem_cons_of_mem _ (List.mem_append_left _ ?_)
      refine List.mem_flatMap.mpr ⟨(nm, mat), hmem, ?_⟩
      simp [childEvents]
    · refine List.mem_cons_of_mem _ (List.mem_append_left _ ?_)
      refine List.mem_flatMap.mpr ⟨(nm, mat), hmem, ?_⟩
      simp [childEvents]
    · intro hu hnm hsl
      have hne : osPathJoin g.uri nm ≠ g.uri := by
        by_cases he : strEndsWith g.uri "/" = true
        · simp only [osPathJoin, hsl, he, hu, Bool.false_eq_true, if_false,
            false_or, if_true]
          exact append_ne_left g.uri nm hnm
        · simp only [osPathJoin, hsl, he, Bool.false_eq_true, if_false]
          rw [if_neg (by simp [hu, he])]
          exact append_slash_ne g.uri nm
      simp only [uriLocatedBeneath]
      refine ⟨⟨nm.data, ?_⟩, hne⟩
      by_cases he : strEndsWith g.uri "/" = true <;>
        simp [osPathJoin, hsl, he, hu, String.data_append]

/-- Witness for the amended C5: a one-member import into an obsp group at
URI u with two axis labels. -/
theorem c5_bulk_import_trace_witness :
    ((AnnotationPairwiseMatrixGroup.mk "u" "obsp" "obs_id_i"
        "obs_id_j").from_anndata [("m1", [])] ["c1", "c2"]).head?
      = some (.openEv "w")
    ∧ ((AnnotationPairwiseMatrixGroup.mk "u" "obsp" "obs_id_i"
        "obs_id_j").from_anndata [("m1", [])] ["c1", "c2"]).getLast?
      = some .closeEv
    ∧ ((AnnotationPairwiseMatrixGroup.mk "u" "obsp" "obs_id_i"
        "obs_id_j").from_anndata [("m1", [])] ["c1", "c2"]).count .closeEv = 1
    ∧ GroupEvent.fromMatrixEv ⟨"u/m1", "m1", "obs_id_i", "obs_id_j"⟩ []
        ["c1", "c2"] ["c1", "c2"]
      ∈ (AnnotationPairwiseMatrixGroup.mk "u" "obsp" "obs_id_i"
        "obs_id_j").from_anndata [("m1", [])] ["c1", "c2"]
    ∧ GroupEvent.addObjectEv ⟨"u/m1", "m1", "obs_id_i", "obs_id_j"⟩
      ∈ (AnnotationPairwiseMatrixGroup.mk "u" "obsp" "obs_id_i"
        "obs_id_j").from_anndata [("m1", [])] ["c1", "c2"]
    ∧ uriLocatedBeneath "u" (osPathJoin "u" "m1") := by
  obtain ⟨h1, h2, h3, h4⟩ := c5_bulk_import_trace
    ⟨"u", "obsp", "obs_id_i", "obs_id_j"⟩ [("m1", [])] ["c1", "c2"]
  obtain ⟨hm1, hm2, hm3⟩ := h4 "m1" [] (by decide)
  exact ⟨h1, h2, h3, hm1, hm2, hm3 (by decide) (by decide) (by decide)⟩
